import Mathlib

/-!
Verification of `src/main.py` of SystemFault/MainClockHub.

The script is a straight-line MicroPython bring-up sequence.  We embed it
shallowly: each external driver call becomes an `Event`, and the module
top level becomes a list of micro-steps (`Step`) — a Python name lookup,
a driver call, or a name binding — executed in the source's evaluation
order by `exec`.  An oracle `ok : Event → Bool` says which driver calls
succeed, so runs with hardware failures are runs with `ok e = false`
somewhere.  A driver call that is issued appears in the trace even when
it raises.

Source, line by line (src/main.py):
  1  from machine import Pin, I2C, SPI
  2  from ssd1306 import SSD1306_I2C
  3  from nrf24 import NRF24L01
  4  import utime
  5  from ds1307 import DS1307
  18 WIDTH = 128
  19 HEIGHT = 64
  21 i2c = I2C(0, scl = Pin(1), sda = Pin(0), freq = 40000)
  23 oled = SSD1306_I2C(WIDTH, HEIGHT, i2c)
  25 oled.fill(0)
  28 oled.text("testhjgjhfgjgfhg",0,0)
  30 oled.show()
  32 radio = nrf24l01.NRF24L01(SPI(1), cs=Pin(15), ce=Pin(16),
  33                           channel=7, payload_size=32)

Note line 32 references the name `nrf24l01`, which no import binds
(line 3 binds `NRF24L01`).  Python evaluates the callee of a call before
its arguments, so the lookup of `nrf24l01` happens before `SPI(1)` is
evaluated.
-/

/-- External driver calls the script (or the driver APIs it imports) can
make.  `Pin(n)` construction is modelled as pure value creation, not an
event; the claims under scrutiny are about bus, display, transceiver and
RTC calls.  The transceiver send/receive and DS1307 constructors are in
the vocabulary so that "this call never happens" is a statement about
traces, even though `src/main.py` contains no such call. -/
inductive Event where
  | i2cInit (bus scl sda freq : Nat)
  | ssd1306Init (width height busHandle : Nat)
  | oledFill (color : Nat)
  | oledText (s : String) (x y : Nat)
  | oledShow
  | spiInit (bus : Nat)
  | nrfInit (spiHandle cs ce channel payloadSize : Nat)
  | nrfSend (payload : List Nat)
  | nrfRecv
  | ds1307Init (busHandle : Nat)
  | ds1307Datetime
  deriving Repr, DecidableEq

/-- Classifier: transceiver constructor call. -/
def Event.isNrfInit : Event → Bool
  | .nrfInit _ _ _ _ _ => true
  | _ => false

/-- Classifier: transceiver transmit call. -/
def Event.isNrfSend : Event → Bool
  | .nrfSend _ => true
  | _ => false

/-- Classifier: transceiver receive call. -/
def Event.isNrfRecv : Event → Bool
  | .nrfRecv => true
  | _ => false

/-- Classifier: two-wire (I2C) bus construction. -/
def Event.isI2cInit : Event → Bool
  | .i2cInit _ _ _ _ => true
  | _ => false

/-- Classifier: display driver construction. -/
def Event.isSsd1306Init : Event → Bool
  | .ssd1306Init _ _ _ => true
  | _ => false

/-- Classifier: any DS1307 real-time-clock driver call. -/
def Event.isDs1307 : Event → Bool
  | .ds1307Init _ => true
  | .ds1307Datetime => true
  | _ => false

/-- Classifier: any display update call (`fill`, `text` or `show`). -/
def Event.isDisplayUpdate : Event → Bool
  | .oledFill _ => true
  | .oledText _ _ _ => true
  | .oledShow => true
  | _ => false

/-- Classifier: `oled.fill` call, any argument. -/
def Event.isOledFill : Event → Bool
  | .oledFill _ => true
  | _ => false

/-- Classifier: `oled.text` call, any arguments. -/
def Event.isOledText : Event → Bool
  | .oledText _ _ _ => true
  | _ => false

/-- Classifier: `oled.show` call. -/
def Event.isOledShow : Event → Bool
  | .oledShow => true
  | _ => false

/-- Outcome of a run of the module top level. -/
inductive Outcome where
  | done
  | driverError (e : Event)
  | nameError (x : String)
  deriving Repr, DecidableEq

/-- A micro-step of the module top level: a Python name lookup, a driver
call, or a binding of a module-scope name. -/
inductive Step where
  | lookup (x : String)
  | call (e : Event)
  | bind (x : String)
  deriving Repr, DecidableEq

/-- Names bound by the import statements, lines 1–5 of `src/main.py`. -/
def importedNames : List String :=
  ["Pin", "I2C", "SPI", "SSD1306_I2C", "NRF24L01", "utime", "DS1307"]

/-- `WIDTH = 128` (line 18). -/
def WIDTH : Nat := 128

/-- `HEIGHT = 64` (line 19). -/
def HEIGHT : Nat := 64

/-- Model handle returned by the `I2C` constructor on line 21 and bound to
the module-scope name `i2c`. -/
def i2cHandle : Nat := 0

/-- Model handle returned by the `SPI(1)` constructor on line 32. -/
def spiHandle : Nat := 1

/-- Literal string drawn on line 28. -/
def configuredText : String := "testhjgjhfgjgfhg"

/-- Line 21: `i2c = I2C(0, scl = Pin(1), sda = Pin(0), freq = 40000)`. -/
def i2cEvent : Event := .i2cInit 0 1 0 40000

/-- Line 23: `oled = SSD1306_I2C(WIDTH, HEIGHT, i2c)`. -/
def displayEvent : Event := .ssd1306Init WIDTH HEIGHT i2cHandle

/-- Line 25: `oled.fill(0)`. -/
def fillEvent : Event := .oledFill 0

/-- Line 28: `oled.text("testhjgjhfgjgfhg",0,0)`. -/
def textEvent : Event := .oledText configuredText 0 0

/-- Line 30: `oled.show()`. -/
def showEvent : Event := .oledShow

/-- Line 32, argument `SPI(1)`. -/
def spiEvent : Event := .spiInit 1

/-- Line 32–33, the call `nrf24l01.NRF24L01(SPI(1), cs=Pin(15),
ce=Pin(16), channel=7, payload_size=32)` — were its callee to resolve. -/
def nrfEvent : Event := .nrfInit spiHandle 15 16 7 32

/-- The module top level of `src/main.py` as micro-steps, in the source's
evaluation order.  For each statement the callee name is looked up first,
then argument subexpressions left to right (Python call semantics), then
the driver call is made, then the assignment target is bound.  Lines
18–19 only bind names.  In the statement of lines 32–33 the callee
`nrf24l01.NRF24L01` is evaluated before any argument, so the lookup of
`nrf24l01` precedes the `SPI(1)` construction. -/
def script : List Step :=
  [ .bind "WIDTH", .bind "HEIGHT",
    -- line 21
    .lookup "I2C", .lookup "Pin", .lookup "Pin", .call i2cEvent,
    .bind "i2c",
    -- line 23
    .lookup "SSD1306_I2C", .lookup "WIDTH", .lookup "HEIGHT",
    .lookup "i2c", .call displayEvent, .bind "oled",
    -- line 25
    .lookup "oled", .call fillEvent,
    -- line 28
    .lookup "oled", .call textEvent,
    -- line 30
    .lookup "oled", .call showEvent,
    -- lines 32–33
    .lookup "nrf24l01", .lookup "SPI", .call spiEvent,
    .lookup "Pin", .lookup "Pin", .call nrfEvent, .bind "radio" ]

/-- Execute micro-steps.  A lookup of an unbound name raises `NameError`
and stops the run; a driver call the oracle fails raises and stops the
run (the issued call stays in the trace); nothing catches anything. -/
def exec (ok : Event → Bool) :
    List Step → List String → List Event → List Event × Outcome
  | [], _, tr => (tr, .done)
  | .lookup x :: rest, bound, tr =>
      if bound.contains x then exec ok rest bound tr
      else (tr, .nameError x)
  | .call e :: rest, bound, tr =>
      if ok e then exec ok rest bound (tr ++ [e])
      else (tr ++ [e], .driverError e)
  | .bind x :: rest, bound, tr => exec ok rest (bound ++ [x]) tr

/-- One run of `src/main.py` under oracle `ok`: the ordered trace of
driver calls issued, and the outcome. -/
def run (ok : Event → Bool) : List Event × Outcome :=
  exec ok script importedNames []

/-- Every module-scope name the script's text could ever bind: the
imports plus all assignment targets, `radio` included even though its
binding on line 32 is never reached.  The name `nrf24l01` is not among
them. -/
def moduleBoundNames : List String :=
  importedNames ++ ["WIDTH", "HEIGHT", "i2c", "oled", "radio"]

/-- The full intended call sequence of the script, in source order. -/
def scriptCalls : List Event :=
  [i2cEvent, displayEvent, fillEvent, textEvent, showEvent, spiEvent,
   nrfEvent]

example :
    run (fun _ => true) =
      ([i2cEvent, displayEvent, fillEvent, textEvent, showEvent],
       .nameError "nrf24l01") := by
  rfl

example :
    run (fun e => !e.isOledFill) =
      ([i2cEvent, displayEvent, fillEvent], .driverError fillEvent) := by
  rfl

/-- When the five display-path driver calls succeed, the run issues
exactly those five calls and then dies on the lookup of `nrf24l01`. -/
lemma run_display_ok (ok : Event → Bool)
    (h1 : ok i2cEvent = true) (h2 : ok displayEvent = true)
    (h3 : ok fillEvent = true) (h4 : ok textEvent = true)
    (h5 : ok showEvent = true) :
    run ok = ([i2cEvent, displayEvent, fillEvent, textEvent, showEvent],
      .nameError "nrf24l01") := by
  simp [run, exec, script, importedNames, h1, h2, h3, h4, h5]

/-- Every run is one of six: it stops at the first failing driver call,
or passes all five display-path calls and dies on the lookup of
`nrf24l01`.  No run reaches the `SPI(1)` or transceiver construction. -/
lemma run_eq_cases (ok : Event → Bool) :
    run ok = ([i2cEvent], .driverError i2cEvent) ∨
    run ok = ([i2cEvent, displayEvent], .driverError displayEvent) ∨
    run ok = ([i2cEvent, displayEvent, fillEvent],
      .driverError fillEvent) ∨
    run ok = ([i2cEvent, displayEvent, fillEvent, textEvent],
      .driverError textEvent) ∨
    run ok = ([i2cEvent, displayEvent, fillEvent, textEvent, showEvent],
      .driverError showEvent) ∨
    run ok = ([i2cEvent, displayEvent, fillEvent, textEvent, showEvent],
      .nameError "nrf24l01") := by
  cases h1 : ok i2cEvent <;> cases h2 : ok displayEvent <;>
    cases h3 : ok fillEvent <;> cases h4 : ok textEvent <;>
    cases h5 : ok showEvent <;>
    simp [run, exec, script, importedNames, h1, h2, h3, h4, h5]

/-- Claim C1: in every run where the I2C bus, display constructor, fill,
text and show calls succeed, the transceiver construction statement dies
with an unhandled NameError on `nrf24l01` — a name no line of the module
ever binds, while line 3 binds `NRF24L01` — and in no run whatsoever is a
transceiver object constructed. -/
theorem spec_c1_radio_nameError (ok : Event → Bool)
    (h1 : ok i2cEvent = true) (h2 : ok displayEvent = true)
    (h3 : ok fillEvent = true) (h4 : ok textEvent = true)
    (h5 : ok showEvent = true) :
    (run ok).2 = Outcome.nameError "nrf24l01" ∧
    "nrf24l01" ∉ moduleBoundNames ∧
    "NRF24L01" ∈ importedNames ∧
    ∀ ok2 : Event → Bool, ∀ e ∈ (run ok2).1, e.isNrfInit = false := by
  refine ⟨by rw [run_display_ok ok h1 h2 h3 h4 h5], by decide, by decide, ?_⟩
  intro ok2
  rcases run_eq_cases ok2 with h|h|h|h|h|h <;> rw [h] <;> decide

/-- Witness for C1 at the oracle that lets every driver call succeed. -/
theorem spec_c1_witness :
    (run (fun _ => true)).2 = Outcome.nameError "nrf24l01" ∧
    "nrf24l01" ∉ moduleBoundNames ∧
    "NRF24L01" ∈ importedNames ∧
    ∀ ok2 : Event → Bool, ∀ e ∈ (run ok2).1, e.isNrfInit = false :=
  spec_c1_radio_nameError (fun _ => true) rfl rfl rfl rfl rfl

/-- Claim C2 fails on the code: even with every driver call succeeding,
the run ends in NameError `nrf24l01` and its trace holds no transceiver
construction, so the transceiver never receives cs=15, ce=16, channel=7,
payload_size=32. -/
theorem spec_c2_transceiver_bug :
    (run (fun _ => true)).2 = Outcome.nameError "nrf24l01" ∧
    (run (fun _ => true)).1.all (fun e => !e.isNrfInit) = true := by
  decide

/-- Claim C3 fails on the code: even when every underlying driver call
succeeds, the run does not complete; it raises an uncaught NameError. -/
theorem spec_c3_uncaught_bug :
    (run (fun _ => true)).2 ≠ Outcome.done ∧
    (run (fun _ => true)).2 = Outcome.nameError "nrf24l01" := by
  decide

/-- Claim C4 fails on the code: with every driver call succeeding, the
calls issued are exactly the five display-path calls; the four-wire bus
and the transceiver are never constructed. -/
theorem spec_c4_sequence_bug :
    (run (fun _ => true)).1 =
      [i2cEvent, displayEvent, fillEvent, textEvent, showEvent] ∧
    spiEvent ∉ (run (fun _ => true)).1 ∧
    nrfEvent ∉ (run (fun _ => true)).1 := by
  decide

/-- Claim C5: in every run whose display-path calls succeed, `fill(0)`,
`text("testhjgjhfgjgfhg",0,0)` and `show()` are each issued exactly once
(and no other fill/text call at all), in that order, and no display
update follows `show()`. -/
theorem spec_c5_display_order (ok : Event → Bool)
    (h1 : ok i2cEvent = true) (h2 : ok displayEvent = true)
    (h3 : ok fillEvent = true) (h4 : ok textEvent = true)
    (h5 : ok showEvent = true) :
    (run ok).1.countP Event.isOledFill = 1 ∧
    (run ok).1.count (Event.oledFill 0) = 1 ∧
    (run ok).1.countP Event.isOledText = 1 ∧
    (run ok).1.count (Event.oledText "testhjgjhfgjgfhg" 0 0) = 1 ∧
    (run ok).1.countP Event.isOledShow = 1 ∧
    (run ok).1.indexOf (Event.oledFill 0) <
      (run ok).1.indexOf (Event.oledText "testhjgjhfgjgfhg" 0 0) ∧
    (run ok).1.indexOf (Event.oledText "testhjgjhfgjgfhg" 0 0) <
      (run ok).1.indexOf Event.oledShow ∧
    ∀ e ∈ (run ok).1.drop ((run ok).1.indexOf Event.oledShow + 1),
      e.isDisplayUpdate = false := by
  rw [run_display_ok ok h1 h2 h3 h4 h5]
  decide

/-- Witness for C5 at the oracle that lets every driver call succeed. -/
theorem spec_c5_witness :
    (run (fun _ => true)).1.countP Event.isOledFill = 1 ∧
    (run (fun _ => true)).1.count (Event.oledFill 0) = 1 ∧
    (run (fun _ => true)).1.countP Event.isOledText = 1 ∧
    (run (fun _ => true)).1.count (Event.oledText "testhjgjhfgjgfhg" 0 0)
      = 1 ∧
    (run (fun _ => true)).1.countP Event.isOledShow = 1 ∧
    (run (fun _ => true)).1.indexOf (Event.oledFill 0) <
      (run (fun _ => true)).1.indexOf
        (Event.oledText "testhjgjhfgjgfhg" 0 0) ∧
    (run (fun _ => true)).1.indexOf
        (Event.oledText "testhjgjhfgjgfhg" 0 0) <
      (run (fun _ => true)).1.indexOf Event.oledShow ∧
    ∀ e ∈ (run (fun _ => true)).1.drop
        ((run (fun _ => true)).1.indexOf Event.oledShow + 1),
      e.isDisplayUpdate = false :=
  spec_c5_display_order (fun _ => true) rfl rfl rfl rfl rfl

/-- Claim C6: in every run the first driver call issued is the I2C
construction with bus 0, scl=1, sda=0, freq=40000; any I2C construction
in a trace has exactly those arguments; and any display construction
comes strictly after that I2C construction. -/
theorem spec_c6_i2c_before_display (ok : Event → Bool) :
    (run ok).1.head? = some (Event.i2cInit 0 1 0 40000) ∧
    (∀ e ∈ (run ok).1, e.isI2cInit = true →
      e = Event.i2cInit 0 1 0 40000) ∧
    ∀ e ∈ (run ok).1, e.isSsd1306Init = true →
      (run ok).1.indexOf (Event.i2cInit 0 1 0 40000) <
        (run ok).1.indexOf e := by
  rcases run_eq_cases ok with h|h|h|h|h|h <;> rw [h] <;> decide

/-- Witness for C6: the display construction of the all-succeed run sits
after the I2C construction. -/
theorem spec_c6_witness :
    (run (fun _ => true)).1.indexOf (Event.i2cInit 0 1 0 40000) <
      (run (fun _ => true)).1.indexOf displayEvent :=
  (spec_c6_i2c_before_display (fun _ => true)).2.2 displayEvent
    (by decide) (by decide)

/-- Claim C7: in every run, any display construction issued has width
128, height 64 and the bus handle that the I2C construction returned
(`i2cHandle`, the value bound to `i2c` on line 21). -/
theorem spec_c7_display_args (ok : Event → Bool) :
    ∀ e ∈ (run ok).1, e.isSsd1306Init = true →
      e = Event.ssd1306Init 128 64 i2cHandle := by
  rcases run_eq_cases ok with h|h|h|h|h|h <;> rw [h] <;> decide

/-- Witness for C7 at the display construction of the all-succeed run. -/
theorem spec_c7_witness :
    displayEvent = Event.ssd1306Init 128 64 i2cHandle :=
  spec_c7_display_args (fun _ => true) displayEvent (by decide) (by decide)

/-- Claim C8: whenever a driver call raises, the run is fail-fast: the
failing call is the last one issued, the trace stops as a prefix of the
script's call sequence, and the error is the run's outcome (nothing
catches it, nothing retries). -/
theorem spec_c8_fail_fast (ok : Event → Bool) (e : Event)
    (h : (run ok).2 = Outcome.driverError e) :
    (run ok).2 ≠ Outcome.done ∧
    (run ok).1.getLast? = some e ∧
    (run ok).1 = scriptCalls.take (run ok).1.length := by
  rcases run_eq_cases ok with h6|h6|h6|h6|h6|h6
  · rw [h6] at h ⊢; simp at h; subst h; decide
  · rw [h6] at h ⊢; simp at h; subst h; decide
  · rw [h6] at h ⊢; simp at h; subst h; decide
  · rw [h6] at h ⊢; simp at h; subst h; decide
  · rw [h6] at h ⊢; simp at h; subst h; decide
  · rw [h6] at h; simp at h

/-- Witness for C8 at an oracle that fails the `fill` call. -/
theorem spec_c8_witness :
    (run (fun e => !e.isOledFill)).2 ≠ Outcome.done ∧
    (run (fun e => !e.isOledFill)).1.getLast? = some (Event.oledFill 0) ∧
    (run (fun e => !e.isOledFill)).1 =
      scriptCalls.take (run (fun e => !e.isOledFill)).1.length :=
  spec_c8_fail_fast (fun e => !e.isOledFill) (Event.oledFill 0)
    (by decide)

/-- Claim C9: no run issues any transceiver transmit or receive call. -/
theorem spec_c9_no_radio_traffic (ok : Event → Bool) :
    ∀ e ∈ (run ok).1, e.isNrfSend = false ∧ e.isNrfRecv = false := by
  rcases run_eq_cases ok with h|h|h|h|h|h <;> rw [h] <;> decide

/-- Witness for C9 at the first call of the all-succeed run. -/
theorem spec_c9_witness :
    Event.isNrfSend i2cEvent = false ∧
    Event.isNrfRecv i2cEvent = false :=
  spec_c9_no_radio_traffic (fun _ => true) i2cEvent (by decide)

/-- Claim C10: line 5 imports the DS1307 driver (the name is bound), yet
no run issues any DS1307 call. -/
theorem spec_c10_no_rtc :
    "DS1307" ∈ importedNames ∧
    ∀ ok : Event → Bool, ∀ e ∈ (run ok).1, e.isDs1307 = false := by
  refine ⟨by decide, ?_⟩
  intro ok
  rcases run_eq_cases ok with h|h|h|h|h|h <;> rw [h] <;> decide

/-- Witness for C10 at the first call of the all-succeed run. -/
theorem spec_c10_witness : Event.isDs1307 i2cEvent = false :=
  spec_c10_no_rtc.2 (fun _ => true) i2cEvent (by decide)
